import Mathlib

/-!
Shallow embedding of backend/app/services/currency_service.py (fx alert
service). External effects are made explicit:
  - the HTTP response of the latest-rate endpoint is an input value,
  - the alpha_vantage daily series fetch is an input of type
    Except Err (List (day, close)), the error constructor standing for any
    exception raised while fetching or parsing the series,
  - the document store is a list of records threaded through each call,
  - the SMTP server is a function from recipient address to an optional
    error.
Floats in the source are modeled as exact rationals; datetimes are modeled
as abstract tick counts (naturals) ordered as the source orders datetimes.
-/

set_option autoImplicit false

namespace CurrencyAlert

/-- A propagated Python exception, carrying only its message. -/
structure Err where
  msg : String
deriving Repr, DecidableEq

/-- Document RateStat, defined inline in currency_service.py:
base, target, current_rate, avg_3y, status ("LOW" or "HIGH"), calculated_at. -/
structure RateStat where
  base : String
  target : String
  current_rate : ℚ
  avg_3y : ℚ
  status : String
  calculated_at : ℕ
deriving Repr, DecidableEq

/-- NotificationSetting (external model): a user reference that may be
missing (getattr(s, "user", None) in the source) and an is_active flag. -/
structure NotificationSetting where
  user : Option ℕ
  is_active : Bool
deriving Repr, DecidableEq

/-- User (external model): id and email. -/
structure User where
  id : ℕ
  email : String
deriving Repr, DecidableEq

/-- Settings used by the service layer (defaults from core/config.py). -/
structure SettingsModel where
  DEFAULT_BASE_CURRENCY : String
  DEFAULT_TARGET_CURRENCY : String
deriving Repr, DecidableEq

/-- The global settings object with the default currency codes of config.py. -/
def settings : SettingsModel :=
  { DEFAULT_BASE_CURRENCY := "USD", DEFAULT_TARGET_CURRENCY := "KRW" }

/-- Model of the HTTP response of the exchangerate-api latest endpoint:
resp.raise_for_status() raises iff ok is false, and the JSON body carries a
conversion_rates table. -/
structure HttpResponse where
  ok : Bool
  conversion_rates : List (String × ℚ)
deriving Repr, DecidableEq

/-- Python dict lookup data["conversion_rates"][target]: the first binding
of the key, raising KeyError (modeled as none) when absent. -/
def lookupRate (rates : List (String × ℚ)) (target : String) : Option ℚ :=
  (rates.find? (fun p => decide (p.1 = target))).map Prod.snd

/-- _api_latest: raise_for_status on HTTP error, then extract the single
numeric rate for target; propagates on HTTP error or missing key. -/
def _api_latest (resp : HttpResponse) (target : String) : Except Err ℚ :=
  if !resp.ok then .error { msg := "HTTPError" }
  else
    match lookupRate resp.conversion_rates target with
    | none => .error { msg := "KeyError" }
    | some r => .ok r

/-- Arithmetic mean of a list of values, as pandas mean computes it. -/
def mean (xs : List ℚ) : ℚ := xs.sum / xs.length

/-- The df.loc[start_date : end_date] slice: keep the rows whose day lies in
the window [now - 3*365 days, now]. -/
def filter3y (now : ℕ) (data : List (ℕ × ℚ)) : List (ℕ × ℚ) :=
  data.filter (fun p => decide (now - 3 * 365 ≤ p.1 ∧ p.1 ≤ now))

/-- The try-block of _api_timeseries_avg_3y: propagate any exception of the
fetch, return 1250.0 when the received data is empty or the 3-year slice is
empty, otherwise the mean of the close column. -/
def avgTryBlock (fetched : Except Err (List (ℕ × ℚ))) (now : ℕ) :
    Except Err ℚ :=
  match fetched with
  | .error e => .error e
  | .ok data =>
    if data.isEmpty then .ok 1250
    else
      let df_3y := filter3y now data
      if df_3y.isEmpty then .ok 1250
      else .ok (mean (df_3y.map Prod.snd))

/-- _api_timeseries_avg_3y with its exceptional behaviour made explicit:
the except-clause catches every exception of the try-block and returns
1250.0 instead of re-raising. -/
def _api_timeseries_avg_3y_exc (fetched : Except Err (List (ℕ × ℚ)))
    (now : ℕ) : Except Err ℚ :=
  match avgTryBlock fetched now with
  | .ok v => .ok v
  | .error _ => .ok 1250

/-- _api_timeseries_avg_3y as the total function it is in the source. -/
def _api_timeseries_avg_3y (fetched : Except Err (List (ℕ × ℚ)))
    (now : ℕ) : ℚ :=
  match _api_timeseries_avg_3y_exc fetched now with
  | .ok v => v
  | .error _ => 1250

/-- compute_and_store: resolve defaulted arguments, fetch current rate
(propagating failures before any store write), compute the 3-year average,
classify, build the record with calculated_at = now, insert it (append) and
return it. Returns the call result together with the store after the call. -/
def compute_and_store (baseArg targetArg : Option String)
    (resp : HttpResponse) (fetched : Except Err (List (ℕ × ℚ))) (now : ℕ)
    (store : List RateStat) : Except Err RateStat × List RateStat :=
  let base := baseArg.getD settings.DEFAULT_BASE_CURRENCY
  let target := targetArg.getD settings.DEFAULT_TARGET_CURRENCY
  match _api_latest resp target with
  | .error e => (.error e, store)
  | .ok current =>
    let avg3 := _api_timeseries_avg_3y fetched now
    let status := if current < avg3 then "LOW" else "HIGH"
    let stat : RateStat :=
      { base := base, target := target, current_rate := current,
        avg_3y := avg3, status := status, calculated_at := now }
    (.ok stat, store ++ [stat])

/-- One step of the descending-sort-then-first query: keep the record with
the larger calculated_at (the earlier one on ties). -/
def pickLatest (acc : Option RateStat) (r : RateStat) : Option RateStat :=
  match acc with
  | none => some r
  | some m => if m.calculated_at < r.calculated_at then some r else some m

/-- RateStat.find on base and target, sorted by descending calculated_at,
first_or_none: the matching record with maximal calculated_at, if any. -/
def find_latest (store : List RateStat) (base target : String) :
    Option RateStat :=
  (store.filter (fun r => decide (r.base = base ∧ r.target = target))).foldl
    pickLatest none

/-- The dict returned by get_latest_stat_or_live. -/
structure LiveResponse where
  base : String
  target : String
  current_rate : ℚ
  avg_3y : ℚ
  status : String
  last_updated : ℕ
  source : String
deriving Repr, DecidableEq

/-- get_latest_stat_or_live: return the most recent persisted stat tagged
db-cache when one exists for (base, target); otherwise fetch and classify
live, tagged live, inserting nothing. Returns the result together with the
(unmodified) store to make the frame explicit. -/
def get_latest_stat_or_live (base target : String) (store : List RateStat)
    (resp : HttpResponse) (fetched : Except Err (List (ℕ × ℚ))) (now : ℕ) :
    Except Err LiveResponse × List RateStat :=
  match find_latest store base target with
  | some latest =>
    (.ok { base := base, target := target,
           current_rate := latest.current_rate, avg_3y := latest.avg_3y,
           status := latest.status, last_updated := latest.calculated_at,
           source := "db-cache" }, store)
  | none =>
    match _api_latest resp target with
    | .error e => (.error e, store)
    | .ok current =>
      let avg3 := _api_timeseries_avg_3y fetched now
      let status := if current < avg3 then "LOW" else "HIGH"
      (.ok { base := base, target := target, current_rate := current,
             avg_3y := avg3, status := status, last_updated := now,
             source := "live" }, store)

/-- Left-pad the fractional part to 4 digits. -/
def padZeros4 (n : ℕ) : String :=
  if n < 10 then "000" ++ toString n
  else if n < 100 then "00" ++ toString n
  else if n < 1000 then "0" ++ toString n
  else toString n

/-- Model of the Python format spec .4f applied to a rate (floats modeled
as exact rationals, rounding modeled as round-half-up to 4 decimals). -/
def fmt4 (q : ℚ) : String :=
  let n : ℤ := ⌊q * 10000 + 1 / 2⌋
  let sign := if n < 0 then "-" else ""
  let m := n.natAbs
  sign ++ toString (m / 10000) ++ "." ++ padZeros4 (m % 10000)

/-- calculated_at.isoformat(): canonical rendering of the abstract tick. -/
def isoformat (t : ℕ) : String := toString t

/-- The fixed subject template of notify_if_low. -/
def alertSubject (stat : RateStat) : String :=
  "[FX Alert] " ++ stat.base ++ "/" ++ stat.target ++
    " 현재 환율이 3년 평균보다 낮습니다"

/-- The fixed body template of notify_if_low, embedding base, target,
current_rate, avg_3y, status and calculated_at. -/
def alertBody (stat : RateStat) : String :=
  "기준통화: " ++ stat.base ++ "\n" ++
  "대상통화: " ++ stat.target ++ "\n" ++
  "현재 환율: " ++ fmt4 stat.current_rate ++ "\n" ++
  "3년 평균: " ++ fmt4 stat.avg_3y ++ "\n" ++
  "상태: " ++ stat.status ++ "\n" ++
  "계산 시각(UTC): " ++ isoformat stat.calculated_at

/-- A MIME message handed to _send_email. -/
structure EmailMsg where
  toAddr : String
  subject : String
  body : String
deriving Repr, DecidableEq

/-- The sequential send loop over resolved users: each _send_email call is
attempted in order; the first SMTP failure propagates and ends the loop.
Returns the attempted messages in order and the propagated error, if any. -/
def sendLoop (smtp : String → Option Err) (subject body : String) :
    List User → List EmailMsg × Option Err
  | [] => ([], none)
  | u :: rest =>
    match smtp u.email with
    | some e => ([{ toAddr := u.email, subject := subject, body := body }], some e)
    | none =>
      let r := sendLoop smtp subject body rest
      ({ toAddr := u.email, subject := subject, body := body } :: r.1, r.2)

/-- The observable effects of one notify_if_low call: whether the
subscription store was queried, whether the user store was queried, the
emails attempted in order, and the propagated SMTP error, if any. -/
structure NotifyTrace where
  subsQueried : Bool
  usersQueried : Bool
  sent : List EmailMsg
  err : Option Err
deriving Repr, DecidableEq

/-- notify_if_low: return at once unless status is LOW; query the active
subscriptions and return if none; collect the user ids of subscriptions
carrying a user reference and return if none; query the users whose id is
among them; send one email per returned user with the fixed template. -/
def notify_if_low (stat : RateStat) (subsStore : List NotificationSetting)
    (usersStore : List User) (smtp : String → Option Err) : NotifyTrace :=
  if stat.status ≠ "LOW" then
    { subsQueried := false, usersQueried := false, sent := [], err := none }
  else
    let subs := subsStore.filter (fun s => s.is_active)
    if subs.isEmpty then
      { subsQueried := true, usersQueried := false, sent := [], err := none }
    else
      let user_ids : List ℕ := subs.filterMap (fun s => s.user)
      if user_ids.isEmpty then
        { subsQueried := true, usersQueried := false, sent := [], err := none }
      else
        let users := usersStore.filter (fun u => decide (u.id ∈ user_ids))
        let r := sendLoop smtp (alertSubject stat) (alertBody stat) users
        { subsQueried := true, usersQueried := true, sent := r.1, err := r.2 }

/-- compute_store_and_notify: compute_and_store, then notify_if_low on the
produced record (no notification when the computation fails). -/
def compute_store_and_notify (baseArg targetArg : Option String)
    (resp : HttpResponse) (fetched : Except Err (List (ℕ × ℚ))) (now : ℕ)
    (store : List RateStat) (subsStore : List NotificationSetting)
    (usersStore : List User) (smtp : String → Option Err) :
    Except Err RateStat × List RateStat × NotifyTrace :=
  match compute_and_store baseArg targetArg resp fetched now store with
  | (.error e, store2) =>
    (.error e, store2,
      { subsQueried := false, usersQueried := false, sent := [], err := none })
  | (.ok stat, store2) =>
    (.ok stat, store2, notify_if_low stat subsStore usersStore smtp)

/-! Helper lemmas about the descending-sort-then-first query. -/

theorem pickLatest_none_eq (r : RateStat) : pickLatest none r = some r := rfl

theorem pickLatest_some_eq (a r : RateStat) :
    pickLatest (some a) r =
      some (if a.calculated_at < r.calculated_at then r else a) := by
  simp only [pickLatest]
  split <;> rfl

theorem foldl_pickLatest_some (l : List RateStat) (a : RateStat) :
    ∃ m, l.foldl pickLatest (some a) = some m := by
  induction l generalizing a with
  | nil => exact ⟨a, rfl⟩
  | cons r t ih =>
    rw [List.foldl_cons, pickLatest_some_eq]
    exact ih _

theorem foldl_pickLatest_mem (l : List RateStat) (acc : Option RateStat)
    (m : RateStat) (h : l.foldl pickLatest acc = some m) :
    m ∈ l ∨ acc = some m := by
  induction l generalizing acc with
  | nil => right; exact h
  | cons r t ih =>
    rw [List.foldl_cons] at h
    rcases ih (pickLatest acc r) h with hm | hacc
    · left; exact List.mem_cons_of_mem _ hm
    · cases acc with
      | none =>
        left
        have hr : r = m := by simpa [pickLatest_none_eq] using hacc
        exact hr ▸ List.mem_cons_self r t
      | some a =>
        rw [pickLatest_some_eq] at hacc
        by_cases hlt : a.calculated_at < r.calculated_at
        · left
          have hr : r = m := by simpa [hlt] using hacc
          exact hr ▸ List.mem_cons_self r t
        · right
          have ha : a = m := by simpa [hlt] using hacc
          exact congrArg some ha

theorem foldl_pickLatest_le (l : List RateStat) (acc : Option RateStat)
    (m : RateStat) (h : l.foldl pickLatest acc = some m) :
    (∀ x ∈ l, x.calculated_at ≤ m.calculated_at) ∧
    (∀ a, acc = some a → a.calculated_at ≤ m.calculated_at) := by
  induction l generalizing acc with
  | nil =>
    refine ⟨by simp, fun a ha => ?_⟩
    rw [List.foldl_nil] at h
    rw [ha] at h
    cases h
    exact le_refl _
  | cons r t ih =>
    rw [List.foldl_cons] at h
    obtain ⟨ht, hacc⟩ := ih (pickLatest acc r) h
    cases acc with
    | none =>
      have hr : r.calculated_at ≤ m.calculated_at :=
        hacc r (pickLatest_none_eq r)
      refine ⟨fun x hx => ?_, fun a ha => by cases ha⟩
      rcases List.mem_cons.mp hx with hxr | hxt
      · exact hxr ▸ hr
      · exact ht x hxt
    | some a =>
      by_cases hlt : a.calculated_at < r.calculated_at
      · have hr : r.calculated_at ≤ m.calculated_at := by
          refine hacc r ?_
          rw [pickLatest_some_eq, if_pos hlt]
        refine ⟨fun x hx => ?_, fun b hb => ?_⟩
        · rcases List.mem_cons.mp hx with hxr | hxt
          · exact hxr ▸ hr
          · exact ht x hxt
        · cases hb
          exact le_trans (le_of_lt hlt) hr
      · have ha : a.calculated_at ≤ m.calculated_at := by
          refine hacc a ?_
          rw [pickLatest_some_eq, if_neg hlt]
        refine ⟨fun x hx => ?_, fun b hb => ?_⟩
        · rcases List.mem_cons.mp hx with hxr | hxt
          · exact hxr ▸ le_trans (le_of_not_lt hlt) ha
          · exact ht x hxt
        · cases hb
          exact ha

theorem find_latest_spec (store : List RateStat) (base target : String)
    (m : RateStat) (h : find_latest store base target = some m) :
    m ∈ store ∧ m.base = base ∧ m.target = target ∧
    ∀ x ∈ store, x.base = base → x.target = target →
      x.calculated_at ≤ m.calculated_at := by
  unfold find_latest at h
  have hmem := foldl_pickLatest_mem _ none m h
  have hle := (foldl_pickLatest_le _ none m h).1
  rcases hmem with hm | hbad
  · rw [List.mem_filter] at hm
    obtain ⟨hm1, hm2⟩ := hm
    rw [decide_eq_true_eq] at hm2
    refine ⟨hm1, hm2.1, hm2.2, fun x hx hb htg => ?_⟩
    refine hle x (List.mem_filter.mpr ⟨hx, ?_⟩)
    rw [decide_eq_true_eq]
    exact ⟨hb, htg⟩
  · cases hbad

theorem find_latest_isSome (store : List RateStat) (base target : String)
    (r : RateStat) (hr : r ∈ store) (hb : r.base = base)
    (htg : r.target = target) :
    ∃ m, find_latest store base target = some m := by
  unfold find_latest
  have hmemf : r ∈ store.filter
      (fun x => decide (x.base = base ∧ x.target = target)) := by
    refine List.mem_filter.mpr ⟨hr, ?_⟩
    rw [decide_eq_true_eq]
    exact ⟨hb, htg⟩
  cases hfil : store.filter
      (fun x => decide (x.base = base ∧ x.target = target)) with
  | nil => rw [hfil] at hmemf; cases hmemf
  | cons x xs =>
    rw [List.foldl_cons, pickLatest_none_eq]
    exact foldl_pickLatest_some xs x

theorem find_latest_eq_none (store : List RateStat) (base target : String)
    (h : ∀ r ∈ store, ¬(r.base = base ∧ r.target = target)) :
    find_latest store base target = none := by
  unfold find_latest
  have hfil : store.filter
      (fun x => decide (x.base = base ∧ x.target = target)) = [] := by
    rw [List.filter_eq_nil_iff]
    intro r hr
    rw [decide_eq_true_eq]
    exact h r hr
  rw [hfil]
  rfl

/-! Helper lemmas about the send loop. -/

theorem sendLoop_all_ok (smtp : String → Option Err) (subject body : String)
    (users : List User) (h : ∀ u ∈ users, smtp u.email = none) :
    sendLoop smtp subject body users =
      (users.map (fun u =>
        { toAddr := u.email, subject := subject, body := body }), none) := by
  induction users with
  | nil => rfl
  | cons u t ih =>
    have hu : smtp u.email = none := h u (List.mem_cons_self u t)
    have ht := ih (fun v hv => h v (List.mem_cons_of_mem u hv))
    simp [sendLoop, hu, ht]

/-! The claims. -/

/-- C1: for every pair of fetched values, the status stored or returned is
LOW iff current_rate is strictly below avg_3y, and HIGH otherwise (ties
included), both in compute_and_store and in the live branch of
get_latest_stat_or_live. -/
theorem spec_C1_status_low_iff (baseArg targetArg : Option String)
    (resp : HttpResponse) (fetched : Except Err (List (ℕ × ℚ))) (now : ℕ)
    (store : List RateStat) :
    (∀ stat : RateStat,
      (compute_and_store baseArg targetArg resp fetched now store).1 =
        .ok stat →
      (stat.status = "LOW" ↔ stat.current_rate < stat.avg_3y) ∧
      (¬ stat.current_rate < stat.avg_3y → stat.status = "HIGH")) ∧
    (∀ (base target : String) (r : LiveResponse),
      find_latest store base target = none →
      (get_latest_stat_or_live base target store resp fetched now).1 =
        .ok r →
      (r.status = "LOW" ↔ r.current_rate < r.avg_3y) ∧
      (¬ r.current_rate < r.avg_3y → r.status = "HIGH")) := by
  constructor
  · intro stat h
    simp only [compute_and_store] at h
    cases hl : _api_latest resp
        (targetArg.getD settings.DEFAULT_TARGET_CURRENCY) with
    | error e => rw [hl] at h; simp at h
    | ok current =>
      rw [hl] at h
      simp only [Except.ok.injEq] at h
      subst h
      by_cases hc : current < _api_timeseries_avg_3y fetched now <;>
        simp [hc]
  · intro base target r hnone h
    simp only [get_latest_stat_or_live, hnone] at h
    cases hl : _api_latest resp target with
    | error e => rw [hl] at h; simp at h
    | ok current =>
      rw [hl] at h
      simp only [Except.ok.injEq] at h
      subst h
      by_cases hc : current < _api_timeseries_avg_3y fetched now <;>
        simp [hc]

/-- C3: every successful compute_and_store call appends exactly one new
record to the store, leaving existing rows untouched, with calculated_at
set to the call time, and returns that same record. -/
theorem spec_C3_insert_exactly_one (baseArg targetArg : Option String)
    (resp : HttpResponse) (fetched : Except Err (List (ℕ × ℚ))) (now : ℕ)
    (store : List RateStat) (current : ℚ)
    (hok : _api_latest resp
      (targetArg.getD settings.DEFAULT_TARGET_CURRENCY) = .ok current) :
    ∃ stat : RateStat,
      compute_and_store baseArg targetArg resp fetched now store =
        (.ok stat, store ++ [stat]) ∧
      stat.calculated_at = now ∧
      stat.base = baseArg.getD settings.DEFAULT_BASE_CURRENCY ∧
      stat.target = targetArg.getD settings.DEFAULT_TARGET_CURRENCY ∧
      stat.current_rate = current ∧
      stat.avg_3y = _api_timeseries_avg_3y fetched now := by
  refine ⟨{ base := baseArg.getD settings.DEFAULT_BASE_CURRENCY,
            target := targetArg.getD settings.DEFAULT_TARGET_CURRENCY,
            current_rate := current,
            avg_3y := _api_timeseries_avg_3y fetched now,
            status := if current < _api_timeseries_avg_3y fetched now
              then "LOW" else "HIGH",
            calculated_at := now }, ?_, rfl, rfl, rfl, rfl, rfl⟩
  simp only [compute_and_store, hok]

/-- C4: when the current-rate fetch fails (HTTP error or missing rate key),
compute_and_store propagates the error and the store is unchanged: no
record is inserted. -/
theorem spec_C4_fetch_error_propagates (baseArg targetArg : Option String)
    (resp : HttpResponse) (fetched : Except Err (List (ℕ × ℚ))) (now : ℕ)
    (store : List RateStat)
    (hfail : resp.ok = false ∨
      lookupRate resp.conversion_rates
        (targetArg.getD settings.DEFAULT_TARGET_CURRENCY) = none) :
    ∃ e : Err,
      _api_latest resp (targetArg.getD settings.DEFAULT_TARGET_CURRENCY) =
        .error e ∧
      compute_and_store baseArg targetArg resp fetched now store =
        (.error e, store) := by
  rcases hfail with hhttp | hkey
  · refine ⟨{ msg := "HTTPError" }, ?_, ?_⟩
    · simp [_api_latest, hhttp]
    · simp [compute_and_store, _api_latest, hhttp]
  · cases hok : resp.ok with
    | false =>
      refine ⟨{ msg := "HTTPError" }, ?_, ?_⟩
      · simp [_api_latest, hok]
      · simp [compute_and_store, _api_latest, hok]
    | true =>
      refine ⟨{ msg := "KeyError" }, ?_, ?_⟩
      · simp [_api_latest, hok, hkey]
      · simp [compute_and_store, _api_latest, hok, hkey]

/-- C5: on an empty time-series result set the history averager follows the
fallback policy and only it: it does not raise and returns the configured
fallback constant 1250.0. -/
theorem spec_C5_empty_series_fallback (data : List (ℕ × ℚ)) (now : ℕ)
    (hempty : data = []) :
    _api_timeseries_avg_3y_exc (.ok data) now = .ok 1250 ∧
    _api_timeseries_avg_3y (.ok data) now = 1250 := by
  subst hempty
  constructor <;> rfl

/-- C10: the implemented history averager never raises: for every input the
exception-transparent version returns a value, and whenever the fetch or
its processing raises, the result is the constant 1250.0, so the fail
policy of the spec is unreachable in this implementation. -/
theorem spec_C10_avg_total_never_raises
    (fetched : Except Err (List (ℕ × ℚ))) (now : ℕ) :
    (∃ q : ℚ, _api_timeseries_avg_3y_exc fetched now = .ok q ∧
      _api_timeseries_avg_3y fetched now = q) ∧
    (∀ e : Err, fetched = .error e →
      _api_timeseries_avg_3y fetched now = 1250) := by
  constructor
  · cases h : avgTryBlock fetched now with
    | ok v =>
      refine ⟨v, ?_, ?_⟩ <;>
        simp [_api_timeseries_avg_3y, _api_timeseries_avg_3y_exc, h]
    | error e =>
      refine ⟨1250, ?_, ?_⟩ <;>
        simp [_api_timeseries_avg_3y, _api_timeseries_avg_3y_exc, h]
  · intro e he
    subst he
    rfl

/-- C2: get_latest_stat_or_live returns the most recent persisted record
(maximal calculated_at) tagged db-cache when one exists for the exact
(base, target) pair, records of other pairs notwithstanding; otherwise it
computes live, returns a record tagged live, and the store is unchanged. -/
theorem spec_C2_db_cache_or_live (base target : String)
    (store : List RateStat) (resp : HttpResponse)
    (fetched : Except Err (List (ℕ × ℚ))) (now : ℕ) :
    ((∃ r ∈ store, r.base = base ∧ r.target = target) →
      ∃ latest : RateStat,
        find_latest store base target = some latest ∧
        latest ∈ store ∧ latest.base = base ∧ latest.target = target ∧
        (∀ m ∈ store, m.base = base → m.target = target →
          m.calculated_at ≤ latest.calculated_at) ∧
        get_latest_stat_or_live base target store resp fetched now =
          (.ok { base := base, target := target,
                 current_rate := latest.current_rate,
                 avg_3y := latest.avg_3y, status := latest.status,
                 last_updated := latest.calculated_at,
                 source := "db-cache" }, store)) ∧
    ((∀ r ∈ store, ¬(r.base = base ∧ r.target = target)) →
      ∀ current : ℚ, _api_latest resp target = .ok current →
        get_latest_stat_or_live base target store resp fetched now =
          (.ok { base := base, target := target, current_rate := current,
                 avg_3y := _api_timeseries_avg_3y fetched now,
                 status := if current < _api_timeseries_avg_3y fetched now
                   then "LOW" else "HIGH",
                 last_updated := now, source := "live" }, store)) := by
  constructor
  · rintro ⟨r, hr, hb, htg⟩
    obtain ⟨latest, hlat⟩ := find_latest_isSome store base target r hr hb htg
    obtain ⟨hmem, hbl, htl, hmax⟩ :=
      find_latest_spec store base target latest hlat
    exact ⟨latest, hlat, hmem, hbl, htl, hmax,
      by simp [get_latest_stat_or_live, hlat]⟩
  · intro hnone current hok
    have h0 := find_latest_eq_none store base target hnone
    simp [get_latest_stat_or_live, h0, hok]

/-- C6: for a stat whose status is not LOW, notify_if_low is a no-op: it
returns without querying the subscription store or the user store and
without attempting any email. -/
theorem spec_C6_high_noop (stat : RateStat)
    (subsStore : List NotificationSetting) (usersStore : List User)
    (smtp : String → Option Err) (hstat : stat.status ≠ "LOW") :
    notify_if_low stat subsStore usersStore smtp =
      { subsQueried := false, usersQueried := false, sent := [],
        err := none } := by
  simp [notify_if_low, hstat]

/-- C7: if the SMTP send to some recipient fails, the error propagates and
no email is attempted for any later recipient of the pass; the attempted
messages are exactly those to the earlier recipients plus the failing one. -/
theorem spec_C7_smtp_failure_aborts (smtp : String → Option Err)
    (subject body : String) (pre : List User) (u : User) (post : List User)
    (e : Err) (hpre : ∀ v ∈ pre, smtp v.email = none)
    (hu : smtp u.email = some e) :
    sendLoop smtp subject body (pre ++ u :: post) =
      (pre.map (fun v =>
          { toAddr := v.email, subject := subject, body := body }) ++
        [{ toAddr := u.email, subject := subject, body := body }],
       some e) := by
  induction pre with
  | nil => simp [sendLoop, hu]
  | cons v t ih =>
    have hv : smtp v.email = none := hpre v (List.mem_cons_self v t)
    have ht := ih (fun w hw => hpre w (List.mem_cons_of_mem v hw))
    simp [sendLoop, hv, ht]

/-- C8: when no active NotificationSetting row exists, notify_if_low sends
zero emails and never queries the user store; on the LOW path it returns
right after the subscription query. -/
theorem spec_C8_no_active_subs (stat : RateStat)
    (subsStore : List NotificationSetting) (usersStore : List User)
    (smtp : String → Option Err)
    (hna : subsStore.filter (fun s => s.is_active) = []) :
    (notify_if_low stat subsStore usersStore smtp).usersQueried = false ∧
    (notify_if_low stat subsStore usersStore smtp).sent = [] ∧
    (stat.status = "LOW" →
      notify_if_low stat subsStore usersStore smtp =
        { subsQueried := true, usersQueried := false, sent := [],
          err := none }) := by
  by_cases hstat : stat.status = "LOW"
  · have hrun : notify_if_low stat subsStore usersStore smtp =
        { subsQueried := true, usersQueried := false, sent := [],
          err := none } := by
      simp [notify_if_low, hstat, hna]
    rw [hrun]
    exact ⟨rfl, rfl, fun _ => rfl⟩
  · have hrun : notify_if_low stat subsStore usersStore smtp =
        { subsQueried := false, usersQueried := false, sent := [],
          err := none } := by
      simp [notify_if_low, hstat]
    rw [hrun]
    exact ⟨rfl, rfl, fun h => absurd h hstat⟩

/-- C9: on a LOW stat with at least one active subscription carrying a user
reference, notify_if_low queries subscriptions and users and sends exactly
one email per distinct resolved user (duplicate subscriptions for a user do
not duplicate mail), each with the fixed subject and body template built
from the stat. -/
theorem spec_C9_one_email_per_user (stat : RateStat)
    (subsStore : List NotificationSetting) (usersStore : List User)
    (smtp : String → Option Err) (hstat : stat.status = "LOW")
    (hsmtp : ∀ a : String, smtp a = none)
    (hids : (usersStore.map (fun u => u.id)).Nodup)
    (hne : (subsStore.filter (fun s => s.is_active)).filterMap
      (fun s => s.user) ≠ []) :
    notify_if_low stat subsStore usersStore smtp =
      { subsQueried := true, usersQueried := true,
        sent := (usersStore.filter (fun u => decide (u.id ∈
            (subsStore.filter (fun s => s.is_active)).filterMap
              (fun s => s.user)))).map (fun u =>
          { toAddr := u.email, subject := alertSubject stat,
            body := alertBody stat }),
        err := none } ∧
    ∀ u ∈ usersStore.filter (fun u => decide (u.id ∈
        (subsStore.filter (fun s => s.is_active)).filterMap
          (fun s => s.user))),
      (usersStore.filter (fun u => decide (u.id ∈
          (subsStore.filter (fun s => s.is_active)).filterMap
            (fun s => s.user)))).count u = 1 := by
  have hsubs : (subsStore.filter (fun s => s.is_active)).isEmpty = false := by
    cases hs : subsStore.filter (fun s => s.is_active) with
    | nil =>
      rw [hs] at hne
      simp at hne
    | cons a t => rfl
  have huids : ((subsStore.filter (fun s => s.is_active)).filterMap
      (fun s => s.user)).isEmpty = false := by
    cases hs : (subsStore.filter (fun s => s.is_active)).filterMap
        (fun s => s.user) with
    | nil => exact absurd hs hne
    | cons a t => rfl
  have hsend := sendLoop_all_ok smtp (alertSubject stat) (alertBody stat)
    (usersStore.filter (fun u => decide (u.id ∈
      (subsStore.filter (fun s => s.is_active)).filterMap
        (fun s => s.user))))
    (fun u _ => hsmtp u.email)
  constructor
  · simp [notify_if_low, hstat, hsubs, huids, hsend]
  · have hnodup : (usersStore.filter (fun u => decide (u.id ∈
        (subsStore.filter (fun s => s.is_active)).filterMap
          (fun s => s.user)))).Nodup :=
      (List.Nodup.of_map _ hids).filter _
    intro u hu
    exact List.count_eq_one_of_mem hnodup hu

/-! Witnesses: each claim theorem applied at one concrete input. -/

/-- Witness for C1 at a concrete computed record. -/
theorem spec_C1_witness :
    ((⟨"USD", "KRW", 1300, 1250, "HIGH", 7⟩ : RateStat).status = "LOW" ↔
      (⟨"USD", "KRW", 1300, 1250, "HIGH", 7⟩ : RateStat).current_rate <
        (⟨"USD", "KRW", 1300, 1250, "HIGH", 7⟩ : RateStat).avg_3y) ∧
    (¬ (⟨"USD", "KRW", 1300, 1250, "HIGH", 7⟩ : RateStat).current_rate <
        (⟨"USD", "KRW", 1300, 1250, "HIGH", 7⟩ : RateStat).avg_3y →
      (⟨"USD", "KRW", 1300, 1250, "HIGH", 7⟩ : RateStat).status = "HIGH") :=
  (spec_C1_status_low_iff none none ⟨true, [("KRW", 1300)]⟩ (.ok []) 7 []).1
    ⟨"USD", "KRW", 1300, 1250, "HIGH", 7⟩ (by rfl)

/-- Witness for C2 at a one-record store holding the queried pair. -/
theorem spec_C2_witness :
    ∃ latest : RateStat,
      find_latest [⟨"USD", "KRW", 5, 6, "LOW", 9⟩] "USD" "KRW" =
        some latest ∧
      latest ∈ [(⟨"USD", "KRW", 5, 6, "LOW", 9⟩ : RateStat)] ∧
      latest.base = "USD" ∧ latest.target = "KRW" ∧
      (∀ m ∈ [(⟨"USD", "KRW", 5, 6, "LOW", 9⟩ : RateStat)],
        m.base = "USD" → m.target = "KRW" →
        m.calculated_at ≤ latest.calculated_at) ∧
      get_latest_stat_or_live "USD" "KRW" [⟨"USD", "KRW", 5, 6, "LOW", 9⟩]
        ⟨true, []⟩ (.ok []) 0 =
        (.ok ⟨"USD", "KRW", latest.current_rate, latest.avg_3y,
          latest.status, latest.calculated_at, "db-cache"⟩,
         [⟨"USD", "KRW", 5, 6, "LOW", 9⟩]) :=
  (spec_C2_db_cache_or_live "USD" "KRW" [⟨"USD", "KRW", 5, 6, "LOW", 9⟩]
    ⟨true, []⟩ (.ok []) 0).1
    ⟨⟨"USD", "KRW", 5, 6, "LOW", 9⟩, by simp, rfl, rfl⟩

/-- Witness for C3 with a successful concrete fetch. -/
theorem spec_C3_witness :
    ∃ stat : RateStat,
      compute_and_store none none ⟨true, [("KRW", 1300)]⟩ (.ok []) 7 [] =
        (.ok stat, [] ++ [stat]) ∧
      stat.calculated_at = 7 ∧
      stat.base =
        (none : Option String).getD settings.DEFAULT_BASE_CURRENCY ∧
      stat.target =
        (none : Option String).getD settings.DEFAULT_TARGET_CURRENCY ∧
      stat.current_rate = 1300 ∧
      stat.avg_3y = _api_timeseries_avg_3y (.ok []) 7 :=
  spec_C3_insert_exactly_one none none ⟨true, [("KRW", 1300)]⟩ (.ok []) 7 []
    1300 (by rfl)

/-- Witness for C4 at a failing HTTP response. -/
theorem spec_C4_witness :
    ∃ e : Err,
      _api_latest ⟨false, []⟩
        ((none : Option String).getD settings.DEFAULT_TARGET_CURRENCY) =
        .error e ∧
      compute_and_store none none ⟨false, []⟩ (.ok []) 0 [] =
        (.error e, []) :=
  spec_C4_fetch_error_propagates none none ⟨false, []⟩ (.ok []) 0 []
    (Or.inl rfl)

/-- Witness for C5 at the empty series. -/
theorem spec_C5_witness :
    _api_timeseries_avg_3y_exc (.ok []) 3 = .ok 1250 ∧
    _api_timeseries_avg_3y (.ok []) 3 = 1250 :=
  spec_C5_empty_series_fallback [] 3 rfl

/-- Witness for C6 at a HIGH record. -/
theorem spec_C6_witness :
    notify_if_low ⟨"USD", "KRW", 1400, 1350, "HIGH", 7⟩
      [⟨some 1, true⟩] [⟨1, "a@x"⟩] (fun _ => none) =
      ⟨false, false, [], none⟩ :=
  spec_C6_high_noop ⟨"USD", "KRW", 1400, 1350, "HIGH", 7⟩
    [⟨some 1, true⟩] [⟨1, "a@x"⟩] (fun _ => none) (by decide)

/-- Witness for C7: the second of three recipients fails. -/
theorem spec_C7_witness :
    sendLoop (fun a => if a = "b@x" then some ⟨"SMTPError"⟩ else none)
      "s" "b" ([⟨1, "a@x"⟩] ++ ⟨2, "b@x"⟩ :: [⟨3, "c@x"⟩]) =
      ([(⟨1, "a@x"⟩ : User)].map (fun v => ⟨v.email, "s", "b"⟩) ++
        [⟨"b@x", "s", "b"⟩], some ⟨"SMTPError"⟩) :=
  spec_C7_smtp_failure_aborts
    (fun a => if a = "b@x" then some ⟨"SMTPError"⟩ else none)
    "s" "b" [⟨1, "a@x"⟩] ⟨2, "b@x"⟩ [⟨3, "c@x"⟩] ⟨"SMTPError"⟩
    (by decide) (by rfl)

/-- Witness for C8 at a store whose only subscription is inactive. -/
theorem spec_C8_witness :
    (notify_if_low ⟨"USD", "KRW", 1300, 1350, "LOW", 7⟩
      [⟨some 1, false⟩] [⟨1, "a@x"⟩] (fun _ => none)).usersQueried =
      false ∧
    (notify_if_low ⟨"USD", "KRW", 1300, 1350, "LOW", 7⟩
      [⟨some 1, false⟩] [⟨1, "a@x"⟩] (fun _ => none)).sent = [] ∧
    ((⟨"USD", "KRW", 1300, 1350, "LOW", 7⟩ : RateStat).status = "LOW" →
      notify_if_low ⟨"USD", "KRW", 1300, 1350, "LOW", 7⟩
        [⟨some 1, false⟩] [⟨1, "a@x"⟩] (fun _ => none) =
        ⟨true, false, [], none⟩) :=
  spec_C8_no_active_subs ⟨"USD", "KRW", 1300, 1350, "LOW", 7⟩
    [⟨some 1, false⟩] [⟨1, "a@x"⟩] (fun _ => none) (by rfl)

/-- Witness for C9: two active subscriptions of the same user produce one
email to that user. -/
theorem spec_C9_witness :
    notify_if_low ⟨"USD", "KRW", 1300, 1350, "LOW", 7⟩
      [⟨some 1, true⟩, ⟨some 1, true⟩] [⟨1, "a@x"⟩, ⟨2, "b@x"⟩]
      (fun _ => none) =
      ⟨true, true,
        ([(⟨1, "a@x"⟩ : User), ⟨2, "b@x"⟩].filter (fun u => decide (u.id ∈
          ([(⟨some 1, true⟩ : NotificationSetting), ⟨some 1, true⟩].filter
            (fun s => s.is_active)).filterMap (fun s => s.user)))).map
          (fun u =>
            ⟨u.email,
             alertSubject ⟨"USD", "KRW", 1300, 1350, "LOW", 7⟩,
             alertBody ⟨"USD", "KRW", 1300, 1350, "LOW", 7⟩⟩),
        none⟩ ∧
    ∀ u ∈ [(⟨1, "a@x"⟩ : User), ⟨2, "b@x"⟩].filter (fun u => decide (u.id ∈
        ([(⟨some 1, true⟩ : NotificationSetting), ⟨some 1, true⟩].filter
          (fun s => s.is_active)).filterMap (fun s => s.user))),
      ([(⟨1, "a@x"⟩ : User), ⟨2, "b@x"⟩].filter (fun u => decide (u.id ∈
        ([(⟨some 1, true⟩ : NotificationSetting), ⟨some 1, true⟩].filter
          (fun s => s.is_active)).filterMap (fun s => s.user)))).count u =
        1 :=
  spec_C9_one_email_per_user ⟨"USD", "KRW", 1300, 1350, "LOW", 7⟩
    [⟨some 1, true⟩, ⟨some 1, true⟩] [⟨1, "a@x"⟩, ⟨2, "b@x"⟩]
    (fun _ => none) (by rfl) (fun _ => rfl) (by decide) (by decide)

/-- Witness for C10 at a raising fetch. -/
theorem spec_C10_witness :
    (∃ q : ℚ,
      _api_timeseries_avg_3y_exc (.error ⟨"boom"⟩) 0 = .ok q ∧
      _api_timeseries_avg_3y (.error ⟨"boom"⟩) 0 = q) ∧
    (∀ e : Err,
      (.error ⟨"boom"⟩ : Except Err (List (ℕ × ℚ))) = .error e →
      _api_timeseries_avg_3y (.error ⟨"boom"⟩) 0 = 1250) :=
  spec_C10_avg_total_never_raises (.error ⟨"boom"⟩) 0

end CurrencyAlert
